import Mathlib

/-!
Shallow embedding of the connection-orchestration logic of cmd-nsc-vpp
(src/main.go): the phase-5 per-service loop (identifier derivation,
resumption probe, mechanism check, request construction, deferred closes),
the dataplane error watcher exitOnErrCh, and the context tree built by main.

External calls (MonitorConnections, stream.Recv, nsmClient.Request,
nsmClient.Close) are modelled by an environment of outcome functions; the
loop itself is translated statement by statement from src/main.go lines
245-310.
-/

namespace NscVpp

/-- One hop record of a connection path (api PathSegment); main.go reads only
its Id field. -/
structure PathSegment where
  id : String
deriving DecidableEq, Repr

/-- Connection path: the current index into the ordered segment list. -/
structure Path where
  index : Nat
  pathSegments : List PathSegment
deriving DecidableEq, Repr

/-- Data-plane mechanism; main.go consults only its Type. -/
structure Mechanism where
  type_ : String
deriving DecidableEq, Repr

/-- Mesh connection, restricted to the fields main.go reads or writes:
Id, NetworkService, Labels, Mechanism, Path.  A nil Mechanism or Path
pointer is modelled as none. -/
structure Connection where
  id : String
  networkService : String
  labels : List (String × String)
  mechanism : Option Mechanism
  path : Option Path
deriving DecidableEq, Repr

/-- networkservice.NetworkServiceRequest as built in main.go lines 276-285. -/
structure NetworkServiceRequest where
  connection : Connection
  mechanismPreferences : List Mechanism
deriving DecidableEq, Repr

/-- Result of nsurl.NSURL parsing of one configured service URL
(external collaborator, consumed through u.NetworkService(), u.Labels(),
u.Mechanism()): service name from the path, labels from the query,
mechanism from the scheme. -/
structure NSURL where
  networkService : String
  labels : List (String × String)
  mechanism : Mechanism
deriving DecidableEq, Repr

/-- The slice of Config (main.go lines 67-77) that the phase-5 loop and
shutdown consult.  requestTimeout is a duration value (nanoseconds); only
its identity matters to the claims. -/
structure Config where
  name : String
  requestTimeout : Nat
  networkServices : List NSURL
deriving DecidableEq, Repr

/-- memif.MECHANISM, the single mechanism type accepted at main.go line 273. -/
def memifMECHANISM : String := "MEMIF"

/-- main.go line 248: id := fmt.Sprintf of name, "-", index. -/
def mkID (name : String) (i : Nat) : String := name ++ "-" ++ toString i

/-- The adoption guard of main.go line 289:
path.Index == 1 and path.PathSegments[0].Id == id and
conn.Mechanism.Type == u.Mechanism().Type.
In Go a nil Path or Mechanism pointer, or an empty segment slice, would
panic at this guard; no claim input exercises those corners and the model
treats them as non-matching. -/
def resumeMatch (id mechType : String) (conn : Connection) : Bool :=
  match conn.path, conn.mechanism with
  | some p, some m =>
      p.index == 1 &&
      (match p.pathSegments.head? with
       | some seg => seg.id == id
       | none => false) &&
      m.type_ == mechType
  | _, _ => false

/-- main.go lines 290-292: adopt a monitored connection as the request
connection, overwriting its Id with the computed identifier and resetting
its path index to 0. -/
def adoptConn (id : String) (conn : Connection) : Connection :=
  { conn with
    id := id
    path := conn.path.map (fun p => { p with index := 0 }) }

/-- main.go lines 276-285: the bare request built from the descriptor. -/
def buildBareRequest (id : String) (u : NSURL) : NetworkServiceRequest :=
  { connection :=
      { id := id
        networkService := u.networkService
        labels := u.labels
        mechanism := none
        path := none }
    mechanismPreferences := [u.mechanism] }

/-- main.go lines 276-295: the request passed to nsmClient.Request.  The
scan over the monitored connection map breaks at the first entry satisfying
the guard; map iteration order is environment-chosen, so the monitored set
is a list and the first match is adopted.  MechanismPreferences always stay
the single mechanism freshly derived from the URL. -/
def buildRequest (id : String) (u : NSURL) (monitored : List Connection) :
    NetworkServiceRequest :=
  match monitored.find? (resumeMatch id u.mechanism.type_) with
  | some conn => { buildBareRequest id u with connection := adoptConn id conn }
  | none => buildBareRequest id u

/-- Outcomes of the external calls made inside the loop, per loop index:
monitorClient.MonitorConnections (line 253), stream.Recv (line 264), and
nsmClient.Request (line 297). -/
structure Env where
  monitorOpen : Nat → Except String Unit
  monitorRecv : Nat → Except String (List Connection)
  request : Nat → NetworkServiceRequest → Except String Connection

/-- main.go lines 264-269: a Recv error is only logged (Errorf) and leaves
monitoredConnections nil, i.e. the empty set. -/
def recvConns : Except String (List Connection) → List Connection
  | .error _ => []
  | .ok conns => conns

/-- The request built at loop index i, after probing (bare when Recv failed
or nothing matched). -/
def iterRequest (cfg : Config) (env : Env) (i : Nat) (u : NSURL) :
    NetworkServiceRequest :=
  buildRequest (mkID cfg.name i) u (recvConns (env.monitorRecv i))

/-- Outcome of one iteration of the phase-5 loop for one descriptor. -/
inductive StepResult where
  | fatalMonitorOpen : StepResult
  | fatalMechanism : String → StepResult
  | fatalRequest : NetworkServiceRequest → StepResult
  | established : NetworkServiceRequest → Connection → StepResult
deriving DecidableEq, Repr

/-- One iteration of the loop body, main.go lines 245-300: open the monitor
stream (error is Fatalf, line 261), receive the single event (error only
logged, line 266), check the mechanism type (non-memif is Fatalf, line 274),
build the request and call the pipeline (error is Fatalf, line 299). -/
def iterStep (cfg : Config) (env : Env) (i : Nat) (u : NSURL) : StepResult :=
  match env.monitorOpen i with
  | .error _ => .fatalMonitorOpen
  | .ok _ =>
      if u.mechanism.type_ ≠ memifMECHANISM then
        .fatalMechanism u.mechanism.type_
      else
        match env.request i (iterRequest cfg env i u) with
        | .error _ => .fatalRequest (iterRequest cfg env i u)
        | .ok conn => .established (iterRequest cfg env i u) conn

/-- The request handed to nsmClient.Request by a step, when one was issued
at all. -/
def stepIssuedRequest : StepResult → Option NetworkServiceRequest
  | .fatalRequest req => some req
  | .established req _ => some req
  | _ => none

/-- How the phase-5 loop ended. -/
inductive RunResult where
  | ok : RunResult
  | fatalMonitorOpen : Nat → RunResult
  | fatalMechanism : Nat → String → RunResult
  | fatalRequest : Nat → RunResult
deriving DecidableEq, Repr

/-- Observable outcome of the loop: its result, the requests handed to the
pipeline in issue order, and the connections whose close was deferred, in
establishment (= defer registration) order. -/
structure LoopOutcome where
  result : RunResult
  requestsIssued : List (Nat × NetworkServiceRequest)
  deferredCloses : List Connection
deriving DecidableEq, Repr

/-- The phase-5 loop over the remaining descriptors, starting at index i
(main.go lines 245-307).  Iterations are strictly sequential; a fatal step
ends the run at once (log.Fatalf calls os.Exit). -/
def loopAux (cfg : Config) (env : Env) : List NSURL → Nat → LoopOutcome
  | [], _ => { result := .ok, requestsIssued := [], deferredCloses := [] }
  | u :: rest, i =>
      match iterStep cfg env i u with
      | .fatalMonitorOpen =>
          { result := .fatalMonitorOpen i, requestsIssued := [], deferredCloses := [] }
      | .fatalMechanism t =>
          { result := .fatalMechanism i t, requestsIssued := [], deferredCloses := [] }
      | .fatalRequest req =>
          { result := .fatalRequest i, requestsIssued := [(i, req)], deferredCloses := [] }
      | .established req conn =>
          { result := (loopAux cfg env rest (i + 1)).result
            requestsIssued := (i, req) :: (loopAux cfg env rest (i + 1)).requestsIssued
            deferredCloses := conn :: (loopAux cfg env rest (i + 1)).deferredCloses }

/-- The whole phase-5 loop, from index 0 over config.NetworkServices. -/
def runLoop (cfg : Config) (env : Env) : LoopOutcome :=
  loopAux cfg env cfg.networkServices 0

/-- Whether the loop ended in a log.Fatalf call. -/
def isFatal : RunResult → Bool
  | .ok => false
  | _ => true

/-- The context tree main builds: ctx, cancel := WithCancel(Background)
(line 80); signalCtx := notifyContext(ctx) (line 224); dialCtx :=
WithTimeout(signalCtx, DialTimeout) (line 230); per-iteration monitorCtx :=
WithTimeout(signalCtx, RequestTimeout) (line 250); per-close closeCtx :=
WithTimeout(ctx, RequestTimeout) (line 303). -/
inductive CtxNode where
  | background : CtxNode
  | mainCtx : CtxNode
  | signalCtx : CtxNode
  | dialCtx : CtxNode
  | monitorCtx : Nat → CtxNode
  | closeCtx : Nat → CtxNode
deriving DecidableEq, Repr

/-- Parent edge of the context tree. -/
def ctxParent : CtxNode → Option CtxNode
  | .background => none
  | .mainCtx => some .background
  | .signalCtx => some .mainCtx
  | .dialCtx => some .signalCtx
  | .monitorCtx _ => some .signalCtx
  | .closeCtx _ => some .mainCtx

/-- A context together with its ancestor chain up to Background. -/
def selfAndAncestors : CtxNode → List CtxNode
  | .background => [.background]
  | .mainCtx => [.mainCtx, .background]
  | .signalCtx => [.signalCtx, .mainCtx, .background]
  | .dialCtx => [.dialCtx, .signalCtx, .mainCtx, .background]
  | .monitorCtx i => [.monitorCtx i, .signalCtx, .mainCtx, .background]
  | .closeCtx i => [.closeCtx i, .mainCtx, .background]

/-- Go context semantics: a context is done as soon as its own cancel or
deadline has fired or that of any ancestor.  The canceled predicate marks
the contexts whose own trigger (cancel call, signal, deadline) has fired. -/
def ctxDone (canceled : CtxNode → Bool) (c : CtxNode) : Bool :=
  (selfAndAncestors c).any canceled

/-- Cancellation state on the dataplane-error shutdown path: the watcher has
called cancel() on the shared context and nothing else has fired. -/
def onlyMainCanceled : CtxNode → Bool
  | .mainCtx => true
  | _ => false

/-- Cancellation state on the signal shutdown path: an OS signal has fired
signalCtx; the shared context was not canceled and no deadline has elapsed. -/
def onlySignalCanceled : CtxNode → Bool
  | .signalCtx => true
  | _ => false

/-- One close call issued from a deferred function of the loop (main.go
lines 302-306): which connection, under which fresh context, with which
timeout budget. -/
structure CloseCall where
  conn : Connection
  ctx : CtxNode
  timeoutBudget : Nat
deriving DecidableEq, Repr

/-- Execution of the deferred close bodies in the order the runtime pops
them, main.go lines 302-306: each creates its own WithTimeout(ctx,
RequestTimeout) context and calls nsmClient.Close; both results of the call
are assigned to blanks, so nothing is logged and no branch depends on the
outcome.  Input pairs are (registration index, connection); the String list
is the log entries produced by the bodies. -/
def execCloses (cfg : Config) (closeResult : Nat → Except String Unit) :
    List (Nat × Connection) → List CloseCall × List String
  | [] => ([], [])
  | (i, c) :: rest =>
      let call : CloseCall :=
        { conn := c, ctx := .closeCtx i, timeoutBudget := cfg.requestTimeout }
      let _ := closeResult i
      ((call :: (execCloses cfg closeResult rest).1),
        (execCloses cfg closeResult rest).2)

/-- The deferred closes registered by the loop, tagged with their
registration index (iteration number). -/
def registeredCloses (deferred : List Connection) : List (Nat × Connection) :=
  (List.range deferred.length).zip deferred

/-- The close calls the process actually performs: on any log.Fatalf exit
os.Exit runs and deferred functions are skipped; on a normal return the
deferred closes run in reverse registration order. -/
def processCloses (cfg : Config) (env : Env)
    (closeResult : Nat → Except String Unit) : List CloseCall :=
  if isFatal (runLoop cfg env).result then []
  else (execCloses cfg closeResult
    (registeredCloses (runLoop cfg env).deferredCloses).reverse).1

/-- Process exit status: logrus Fatalf exits non-zero; a normal return from
main (after the deferred closes) exits zero.  The close results never reach
an exit path. -/
def processExit (cfg : Config) (env : Env)
    (closeResult : Nat → Except String Unit) : Nat :=
  let _ := closeResult
  if isFatal (runLoop cfg env).result then 1 else 0

/-- State of the dataplane error watcher: whether exitOnErrCh took the
log.Fatal exit, and whether the shared context has been canceled by the
watcher. -/
structure WatcherState where
  fatalExit : Bool
  canceledShared : Bool
deriving DecidableEq, Repr

/-- exitOnErrCh, main.go lines 312-318: the eager select.  An error already
pending on the channel is logged with log.Fatal, which exits the process at
once; the shared context is not canceled and the goroutine is never
installed.  With no pending error the function returns with the goroutine
installed and nothing canceled. -/
def exitOnErrChInstall (pendingErr : Option String) : WatcherState :=
  match pendingErr with
  | some _ => { fatalExit := true, canceledShared := false }
  | none => { fatalExit := false, canceledShared := false }

/-- The installed goroutine, main.go lines 320-324: when an error arrives
later it is logged with Error and cancel() is called on the shared context. -/
def watcherOnLaterErr (s : WatcherState) : WatcherState :=
  { s with canceledShared := true }

/-! Helper lemmas. -/

theorem buildRequest_id (id : String) (u : NSURL) (monitored : List Connection) :
    (buildRequest id u monitored).connection.id = id := by
  unfold buildRequest
  split <;> rfl

theorem iterRequest_id (cfg : Config) (env : Env) (i : Nat) (u : NSURL) :
    (iterRequest cfg env i u).connection.id = mkID cfg.name i :=
  buildRequest_id (mkID cfg.name i) u (recvConns (env.monitorRecv i))

theorem iterStep_established_req (cfg : Config) (env : Env) (i : Nat) (u : NSURL)
    (req : NetworkServiceRequest) (conn : Connection)
    (h : iterStep cfg env i u = .established req conn) :
    req = iterRequest cfg env i u := by
  unfold iterStep at h
  split at h
  · exact StepResult.noConfusion h
  · split at h
    · exact StepResult.noConfusion h
    · split at h
      · exact StepResult.noConfusion h
      · injection h with h1 h2
        exact h1.symm

theorem iterStep_fatalRequest_req (cfg : Config) (env : Env) (i : Nat) (u : NSURL)
    (req : NetworkServiceRequest)
    (h : iterStep cfg env i u = .fatalRequest req) :
    req = iterRequest cfg env i u := by
  unfold iterStep at h
  split at h
  · exact StepResult.noConfusion h
  · split at h
    · exact StepResult.noConfusion h
    · split at h
      · injection h with h1
        exact h1.symm
      · exact StepResult.noConfusion h

theorem loopAux_nil (cfg : Config) (env : Env) (i : Nat) :
    loopAux cfg env [] i =
      { result := .ok, requestsIssued := [], deferredCloses := [] } := rfl

theorem loopAux_ok (cfg : Config) (env : Env) :
    ∀ (us : List NSURL) (i : Nat),
      (loopAux cfg env us i).result = RunResult.ok →
      (loopAux cfg env us i).deferredCloses.length = us.length ∧
      (loopAux cfg env us i).requestsIssued.map Prod.fst = List.range' i us.length ∧
      (loopAux cfg env us i).requestsIssued.map (fun p => p.2.connection.id) =
        (List.range' i us.length).map (mkID cfg.name) := by
  intro us
  induction us with
  | nil => intro i _; simp [loopAux]
  | cons u rest ih =>
      intro i h
      cases hstep : iterStep cfg env i u with
      | fatalMonitorOpen =>
          have hL : loopAux cfg env (u :: rest) i =
              { result := .fatalMonitorOpen i, requestsIssued := [], deferredCloses := [] } := by
            simp only [loopAux, hstep]
          rw [hL] at h
          exact absurd h (by simp)
      | fatalMechanism t =>
          have hL : loopAux cfg env (u :: rest) i =
              { result := .fatalMechanism i t, requestsIssued := [], deferredCloses := [] } := by
            simp only [loopAux, hstep]
          rw [hL] at h
          exact absurd h (by simp)
      | fatalRequest req =>
          have hL : loopAux cfg env (u :: rest) i =
              { result := .fatalRequest i, requestsIssued := [(i, req)], deferredCloses := [] } := by
            simp only [loopAux, hstep]
          rw [hL] at h
          exact absurd h (by simp)
      | established req conn =>
          have hL : loopAux cfg env (u :: rest) i =
              { result := (loopAux cfg env rest (i + 1)).result
                requestsIssued := (i, req) :: (loopAux cfg env rest (i + 1)).requestsIssued
                deferredCloses := conn :: (loopAux cfg env rest (i + 1)).deferredCloses } := by
            simp only [loopAux, hstep]
          rw [hL] at h ⊢
          simp only at h
          obtain ⟨ih1, ih2, ih3⟩ := ih (i + 1) h
          have hid : req.connection.id = mkID cfg.name i := by
            rw [iterStep_established_req cfg env i u req conn hstep]
            exact iterRequest_id cfg env i u
          refine ⟨?_, ?_, ?_⟩
          · simp [ih1]
          · simp only [List.map_cons, ih2, List.length_cons, List.range'_succ]
          · simp only [List.map_cons, ih3, List.length_cons, List.range'_succ, hid]

theorem loopAux_fatalMech (cfg : Config) (env : Env)
    (hmon : ∀ j, env.monitorOpen j = .ok ())
    (hreq : ∀ j req, ∃ c, env.request j req = .ok c) :
    ∀ (us : List NSURL) (k i : Nat) (u : NSURL),
      us[k]? = some u →
      u.mechanism.type_ ≠ memifMECHANISM →
      (∀ j v, j < k → us[j]? = some v → v.mechanism.type_ = memifMECHANISM) →
      (loopAux cfg env us i).result = RunResult.fatalMechanism (i + k) u.mechanism.type_ ∧
      (loopAux cfg env us i).requestsIssued.map Prod.fst = List.range' i k := by
  intro us
  induction us with
  | nil => intro k i u hk; simp at hk
  | cons v rest ih =>
      intro k i u hk hbad hgood
      cases k with
      | zero =>
          have hv : v = u := by simpa using hk
          subst hv
          have hstep : iterStep cfg env i v = .fatalMechanism v.mechanism.type_ := by
            unfold iterStep
            rw [hmon i]
            rw [if_pos hbad]
          have hL : loopAux cfg env (v :: rest) i =
              { result := .fatalMechanism i v.mechanism.type_,
                requestsIssued := [], deferredCloses := [] } := by
            simp only [loopAux, hstep]
          rw [hL]
          simp
      | succ k1 =>
          have hv : v.mechanism.type_ = memifMECHANISM :=
            hgood 0 v (Nat.succ_pos k1) (by simp)
          obtain ⟨c, hc⟩ := hreq i (iterRequest cfg env i v)
          have hstep : iterStep cfg env i v =
              .established (iterRequest cfg env i v) c := by
            unfold iterStep
            rw [hmon i]
            rw [if_neg (by simp [hv])]
            rw [hc]
          have hL : loopAux cfg env (v :: rest) i =
              { result := (loopAux cfg env rest (i + 1)).result
                requestsIssued :=
                  (i, iterRequest cfg env i v) :: (loopAux cfg env rest (i + 1)).requestsIssued
                deferredCloses := c :: (loopAux cfg env rest (i + 1)).deferredCloses } := by
            simp only [loopAux, hstep]
          have hk1 : rest[k1]? = some u := by simpa using hk
          have hgood1 : ∀ j v1, j < k1 → rest[j]? = some v1 →
              v1.mechanism.type_ = memifMECHANISM := by
            intro j v1 hj hg
            exact hgood (j + 1) v1 (Nat.succ_lt_succ hj) (by simpa using hg)
          obtain ⟨ihr, ihq⟩ := ih k1 (i + 1) u hk1 hbad hgood1
          rw [hL]
          constructor
          · simp only [ihr]
            have harith : i + 1 + k1 = i + (k1 + 1) := by omega
            rw [harith]
          · simp only [List.map_cons, ihq, List.range'_succ]

theorem execCloses_fst (cfg : Config) (cr : Nat → Except String Unit) :
    ∀ l : List (Nat × Connection),
      (execCloses cfg cr l).1 =
        l.map (fun p =>
          { conn := p.2, ctx := CtxNode.closeCtx p.1, timeoutBudget := cfg.requestTimeout }) := by
  intro l
  induction l with
  | nil => rfl
  | cons p rest ih =>
      cases p with
      | mk i c => simp [execCloses, ih]

theorem execCloses_snd (cfg : Config) (cr : Nat → Except String Unit) :
    ∀ l : List (Nat × Connection), (execCloses cfg cr l).2 = [] := by
  intro l
  induction l with
  | nil => rfl
  | cons p rest ih =>
      cases p with
      | mk i c => simp [execCloses, ih]

theorem closeCtx_injective : Function.Injective CtxNode.closeCtx := by
  intro a b hab
  injection hab

theorem execCloses_conns (cfg : Config) (cr : Nat → Except String Unit) :
    ∀ l : List (Nat × Connection),
      (execCloses cfg cr l).1.map CloseCall.conn = l.map Prod.snd := by
  intro l
  induction l with
  | nil => rfl
  | cons p rest ih =>
      cases p with
      | mk i c => simp [execCloses, ih]

theorem execCloses_ctxs (cfg : Config) (cr : Nat → Except String Unit) :
    ∀ l : List (Nat × Connection),
      (execCloses cfg cr l).1.map CloseCall.ctx =
        (l.map Prod.fst).map CtxNode.closeCtx := by
  intro l
  induction l with
  | nil => rfl
  | cons p rest ih =>
      cases p with
      | mk i c => simp [execCloses, ih]

theorem execCloses_budgets (cfg : Config) (cr : Nat → Except String Unit) :
    ∀ l : List (Nat × Connection),
      (execCloses cfg cr l).1.map CloseCall.timeoutBudget =
        List.replicate l.length cfg.requestTimeout := by
  intro l
  induction l with
  | nil => rfl
  | cons p rest ih =>
      cases p with
      | mk i c => simp [execCloses, ih, List.replicate_succ]

/-! Concrete fixtures used by witnesses and counterexamples. -/

/-- A descriptor with the supported mechanism, as in the spec example URL. -/
def uMemif : NSURL :=
  { networkService := "my-service"
    labels := [("label", "a")]
    mechanism := { type_ := "MEMIF" } }

/-- A descriptor with an unsupported mechanism type. -/
def uKernel : NSURL :=
  { networkService := "kernel-service"
    labels := []
    mechanism := { type_ := "KERNEL" } }

def cfgOne : Config :=
  { name := "cmd-nsc-vpp", requestTimeout := 15000000000, networkServices := [uMemif] }

def cfgTwo : Config :=
  { name := "cmd-nsc-vpp", requestTimeout := 15000000000,
    networkServices := [uMemif, uMemif] }

def cfgMixed : Config :=
  { name := "cmd-nsc-vpp", requestTimeout := 15000000000,
    networkServices := [uMemif, uKernel] }

def cfgThree : Config :=
  { name := "cmd-nsc-vpp", requestTimeout := 15000000000,
    networkServices := [uMemif, uMemif, uMemif] }

/-- A path positioned at index 1 whose first segment is this client's
identifier for slot 0: the resumable shape. -/
def pRes : Path :=
  { index := 1, pathSegments := [{ id := "cmd-nsc-vpp-0" }, { id := "nse-segment" }] }

/-- A monitored connection satisfying the full adoption guard. -/
def connResumable : Connection :=
  { id := "prior-id"
    networkService := "my-service"
    labels := [("resumed", "yes")]
    mechanism := some { type_ := "MEMIF" }
    path := some pRes }

/-- A monitored connection whose first segment Id and mechanism type match
but whose path index is 0, not 1. -/
def connStale : Connection :=
  { id := "prior-id"
    networkService := "my-service"
    labels := [("resumed", "yes")]
    mechanism := some { type_ := "MEMIF" }
    path := some { index := 0, pathSegments := [{ id := "cmd-nsc-vpp-0" }] } }

/-- Healthy environment: probes succeed with an empty snapshot, every
request succeeds echoing the request connection. -/
def envOk : Env :=
  { monitorOpen := fun _ => .ok ()
    monitorRecv := fun _ => .ok []
    request := fun _ req => .ok req.connection }

/-- Healthy environment whose probe snapshot holds a non-adoptable entry. -/
def envOk2 : Env :=
  { monitorOpen := fun _ => .ok ()
    monitorRecv := fun _ => .ok [connStale]
    request := fun _ req => .ok req.connection }

/-- Environment whose requests return per-index distinguishable
connections. -/
def envTagged : Env :=
  { monitorOpen := fun _ => .ok ()
    monitorRecv := fun _ => .ok []
    request := fun i _ => .ok
      { id := toString i
        networkService := "established"
        labels := []
        mechanism := none
        path := none } }

/-- Environment in which opening the monitor stream fails. -/
def envMonFail : Env :=
  { monitorOpen := fun _ => .error "monitor dial failed"
    monitorRecv := fun _ => .ok []
    request := fun _ req => .ok req.connection }

/-- Environment in which the stream opens but Recv fails. -/
def envRecvFail : Env :=
  { monitorOpen := fun _ => .ok ()
    monitorRecv := fun _ => .error "recv failed"
    request := fun _ req => .ok req.connection }

/-- Environment in which the pipeline request for index 1 fails. -/
def envReqFailAt1 : Env :=
  { monitorOpen := fun _ => .ok ()
    monitorRecv := fun _ => .ok []
    request := fun i req => if i == 1 then .error "request failed" else .ok req.connection }

def closeOk : Nat → Except String Unit := fun _ => .ok ()

def closeFail : Nat → Except String Unit := fun _ => .error "close failed"

/-! Claim theorems. -/

/-- C1: for every configuration with N configured services and any two
environments in which the phase-5 loop completes without a fatal exit,
exactly N connections are tracked, the request issued for slot i carries
the deterministic identifier mkID name i (so the issued identifiers are
exactly name-0 .. name-(N-1)), and both runs produce the same identifier
list. -/
theorem C1_deterministic_identifiers (cfg : Config) (env env2 : Env)
    (h : (runLoop cfg env).result = RunResult.ok)
    (h2 : (runLoop cfg env2).result = RunResult.ok) :
    (runLoop cfg env).deferredCloses.length = cfg.networkServices.length ∧
    (runLoop cfg env).requestsIssued.map Prod.fst =
      List.range cfg.networkServices.length ∧
    (runLoop cfg env).requestsIssued.map (fun p => p.2.connection.id) =
      (List.range cfg.networkServices.length).map (mkID cfg.name) ∧
    (runLoop cfg env).requestsIssued.map (fun p => p.2.connection.id) =
      (runLoop cfg env2).requestsIssued.map (fun p => p.2.connection.id) := by
  have h1 := loopAux_ok cfg env cfg.networkServices 0 h
  have hside := loopAux_ok cfg env2 cfg.networkServices 0 h2
  refine ⟨h1.1, ?_, ?_, ?_⟩
  · rw [List.range_eq_range']
    exact h1.2.1
  · rw [List.range_eq_range']
    exact h1.2.2
  · exact h1.2.2.trans hside.2.2.symm

/-- C1 witness: a concrete two-service run under two different healthy
environments. -/
theorem C1_witness :
    (runLoop cfgTwo envOk).result = RunResult.ok ∧
    (runLoop cfgTwo envOk).deferredCloses.length = 2 ∧
    (runLoop cfgTwo envOk).requestsIssued.map (fun p => p.2.connection.id) =
      (runLoop cfgTwo envOk2).requestsIssued.map (fun p => p.2.connection.id) := by
  refine ⟨by decide, ?_, ?_⟩
  · exact (C1_deterministic_identifiers cfgTwo envOk envOk2
      (by decide) (by decide)).1.trans (by decide)
  · exact (C1_deterministic_identifiers cfgTwo envOk envOk2
      (by decide) (by decide)).2.2.2

/-- C2 counterexample: with service list [memif, kernel] and an otherwise
healthy environment, the run fatals on the unsupported mechanism at index 1
only after the request for index 0 has already been issued — refuting that
no request is issued for descriptors earlier than the offending one. -/
theorem C2_counterexample :
    (runLoop cfgMixed envOk).result = RunResult.fatalMechanism 1 "KERNEL" ∧
    (runLoop cfgMixed envOk).requestsIssued.map Prod.fst = [0] := by
  decide

/-- C2 amended: an unsupported mechanism type at index k causes a fatal
exit before any request is issued for index k or later — but only after the
requests for indices 0..k-1 were already issued, because the check runs per
iteration (after that iteration's resumption probe). -/
theorem C2_unsupported_mechanism_fatal (cfg : Config) (env : Env) (k : Nat) (u : NSURL)
    (hmon : ∀ j, env.monitorOpen j = Except.ok ())
    (hreq : ∀ j req, ∃ c, env.request j req = Except.ok c)
    (hk : cfg.networkServices[k]? = some u)
    (hbad : u.mechanism.type_ ≠ memifMECHANISM)
    (hgood : ∀ j v, j < k → cfg.networkServices[j]? = some v →
        v.mechanism.type_ = memifMECHANISM) :
    (runLoop cfg env).result = RunResult.fatalMechanism k u.mechanism.type_ ∧
    (runLoop cfg env).requestsIssued.map Prod.fst = List.range k := by
  have h := loopAux_fatalMech cfg env hmon hreq cfg.networkServices k 0 u hk hbad hgood
  constructor
  · simpa [runLoop] using h.1
  · rw [List.range_eq_range']
    exact h.2

/-- C2 witness: the amended theorem applied to the concrete mixed-service
configuration. -/
theorem C2_witness :
    (runLoop cfgMixed envOk).result =
      RunResult.fatalMechanism 1 uKernel.mechanism.type_ ∧
    (runLoop cfgMixed envOk).requestsIssued.map Prod.fst = List.range 1 := by
  refine C2_unsupported_mechanism_fatal cfgMixed envOk 1 uKernel
    (fun j => rfl) (fun j req => ⟨req.connection, rfl⟩) (by decide) (by decide) ?_
  intro j v hj hv
  have hj0 : j = 0 := Nat.lt_one_iff.mp hj
  subst hj0
  have h0 : cfgMixed.networkServices[0]? = some uMemif := rfl
  rw [h0] at hv
  rw [(Option.some.inj hv).symm]
  decide

/-- C6: a pipeline request error ends the process fatally (non-zero exit)
and the deferred close bodies never run — no close call is made for the
connections established in earlier iterations. -/
theorem C6_request_error_fatal (cfg : Config) (env : Env)
    (cr : Nat → Except String Unit) (k : Nat)
    (h : (runLoop cfg env).result = RunResult.fatalRequest k) :
    processCloses cfg env cr = [] ∧ processExit cfg env cr = 1 := by
  have hf : isFatal (runLoop cfg env).result = true := by rw [h]; rfl
  constructor
  · simp [processCloses, hf]
  · simp [processExit, hf]

/-- C6 witness: a request failure at index 1 after index 0 established a
connection; the established connection is never closed. -/
theorem C6_witness :
    (runLoop cfgTwo envReqFailAt1).result = RunResult.fatalRequest 1 ∧
    (runLoop cfgTwo envReqFailAt1).deferredCloses.length = 1 ∧
    processCloses cfgTwo envReqFailAt1 closeOk = [] ∧
    processExit cfgTwo envReqFailAt1 closeOk = 1 := by
  refine ⟨by decide, by decide, ?_, ?_⟩
  · exact (C6_request_error_fatal cfgTwo envReqFailAt1 closeOk 1 (by decide)).1
  · exact (C6_request_error_fatal cfgTwo envReqFailAt1 closeOk 1 (by decide)).2

/-- C7 counterexample: when opening the monitor subscription fails for the
only descriptor, the process terminates fatally (main.go line 261) and no
request — bare or otherwise — is issued, refuting that a probe failure
never terminates the orchestrator. -/
theorem C7_counterexample :
    (runLoop cfgOne envMonFail).result = RunResult.fatalMonitorOpen 0 ∧
    (runLoop cfgOne envMonFail).requestsIssued = [] := by
  decide

/-- C7 amended: a failure of stream.Recv is only logged; the iteration does
not terminate the process on that account and issues the bare request built
from the descriptor's service name, labels and mechanism preference.  (A
failure of MonitorConnections itself is fatal instead.) -/
theorem C7_recv_failure_bare_request (cfg : Config) (env : Env) (i : Nat)
    (u : NSURL) (e : String)
    (hopen : env.monitorOpen i = Except.ok ())
    (hrecv : env.monitorRecv i = Except.error e)
    (hmech : u.mechanism.type_ = memifMECHANISM) :
    iterStep cfg env i u ≠ StepResult.fatalMonitorOpen ∧
    stepIssuedRequest (iterStep cfg env i u) =
      some (buildBareRequest (mkID cfg.name i) u) := by
  have hbare : iterRequest cfg env i u = buildBareRequest (mkID cfg.name i) u := by
    unfold iterRequest
    rw [hrecv]
    simp [recvConns, buildRequest]
  constructor
  · cases hr : env.request i (iterRequest cfg env i u) with
    | error err => simp [iterStep, hopen, hr, hmech, stepIssuedRequest]
    | ok c => simp [iterStep, hopen, hr, hmech, stepIssuedRequest]
  · cases hr : env.request i (iterRequest cfg env i u) with
    | error err =>
        rw [hbare] at hr
        simp [iterStep, hopen, hr, hmech, stepIssuedRequest, hbare]
    | ok c =>
        rw [hbare] at hr
        simp [iterStep, hopen, hr, hmech, stepIssuedRequest, hbare]

/-- C7 witness: the amended theorem at a concrete descriptor with a failing
Recv. -/
theorem C7_witness :
    stepIssuedRequest (iterStep cfgOne envRecvFail 0 uMemif) =
      some (buildBareRequest (mkID cfgOne.name 0) uMemif) :=
  (C7_recv_failure_bare_request cfgOne envRecvFail 0 uMemif "recv failed"
    rfl rfl rfl).2

/-- C3 counterexample: connStale's first path segment Id equals the
computed identifier and its mechanism type matches the desired one, yet —
its path index being 0, not 1 — the resulting request is the bare one and
does not carry the monitored connection's labels. -/
theorem C3_counterexample :
    (connStale.path.bind (fun p => p.pathSegments.head?)).map PathSegment.id =
      some (mkID "cmd-nsc-vpp" 0) ∧
    connStale.mechanism.map Mechanism.type_ = some uMemif.mechanism.type_ ∧
    buildRequest (mkID "cmd-nsc-vpp" 0) uMemif [connStale] =
      buildBareRequest (mkID "cmd-nsc-vpp" 0) uMemif ∧
    (buildRequest (mkID "cmd-nsc-vpp" 0) uMemif [connStale]).connection.labels ≠
      connStale.labels := by
  decide

/-- C3 amended: adoption additionally requires a path index of 1 (the guard
resumeMatch, from main.go line 289).  When the scan finds a matching
connection the request is seeded from it — carrying its labels and
mechanism, path index reset to the local segment 0 — and when no monitored
connection matches, the bare request built from the descriptor is used. -/
theorem C3_resumption_guard (u : NSURL) (id : String) (monitored : List Connection) :
    (∀ conn, monitored.find? (resumeMatch id u.mechanism.type_) = some conn →
        resumeMatch id u.mechanism.type_ conn = true ∧
        (buildRequest id u monitored).connection.labels = conn.labels ∧
        (buildRequest id u monitored).connection.mechanism = conn.mechanism ∧
        (∀ p, conn.path = some p →
            (buildRequest id u monitored).connection.path =
              some { index := 0, pathSegments := p.pathSegments })) ∧
    ((∀ conn ∈ monitored, resumeMatch id u.mechanism.type_ conn = false) →
        buildRequest id u monitored = buildBareRequest id u) := by
  constructor
  · intro conn hfind
    refine ⟨List.find?_some hfind, ?_, ?_, ?_⟩
    · simp only [buildRequest, hfind]
      rfl
    · simp only [buildRequest, hfind]
      rfl
    · intro p hp
      simp only [buildRequest, hfind]
      simp [adoptConn, hp]
  · intro hnone
    have hfind : monitored.find? (resumeMatch id u.mechanism.type_) = none :=
      List.find?_eq_none.mpr (fun x hx => by simp [hnone x hx])
    simp only [buildRequest, hfind]

/-- C3 witness: the amended theorem at a connection satisfying the full
guard: the request is seeded from it. -/
theorem C3_witness :
    resumeMatch (mkID "cmd-nsc-vpp" 0) uMemif.mechanism.type_ connResumable = true ∧
    (buildRequest (mkID "cmd-nsc-vpp" 0) uMemif [connResumable]).connection.labels =
      connResumable.labels ∧
    (buildRequest (mkID "cmd-nsc-vpp" 0) uMemif [connResumable]).connection.path =
      some { index := 0, pathSegments := pRes.pathSegments } := by
  have h := (C3_resumption_guard uMemif (mkID "cmd-nsc-vpp" 0) [connResumable]).1
    connResumable (by decide)
  exact ⟨h.1, h.2.1, h.2.2.2 pRes rfl⟩

/-- C4: when the loop completes, shutdown closes every tracked connection in
strict reverse order of establishment, each close call under its own fresh
bounded-duration context carrying the configured per-request timeout
(pairwise distinct contexts). -/
theorem C4_reverse_order_teardown (cfg : Config) (env : Env)
    (cr : Nat → Except String Unit)
    (h : (runLoop cfg env).result = RunResult.ok) :
    (processCloses cfg env cr).map CloseCall.conn =
      (runLoop cfg env).deferredCloses.reverse ∧
    (processCloses cfg env cr).map CloseCall.timeoutBudget =
      List.replicate (runLoop cfg env).deferredCloses.length cfg.requestTimeout ∧
    (processCloses cfg env cr).map CloseCall.ctx =
      ((List.range (runLoop cfg env).deferredCloses.length).map CtxNode.closeCtx).reverse ∧
    ((processCloses cfg env cr).map CloseCall.ctx).Nodup := by
  have hf : isFatal (runLoop cfg env).result = false := by rw [h]; rfl
  have hP : processCloses cfg env cr =
      (execCloses cfg cr (registeredCloses (runLoop cfg env).deferredCloses).reverse).1 := by
    simp [processCloses, hf]
  set d := (runLoop cfg env).deferredCloses with hd
  have hsnd : (registeredCloses d).map Prod.snd = d := by
    unfold registeredCloses
    exact List.map_snd_zip _ _ (by simp)
  have hfst : (registeredCloses d).map Prod.fst = List.range d.length := by
    unfold registeredCloses
    exact List.map_fst_zip _ _ (by simp)
  have hctx : (processCloses cfg env cr).map CloseCall.ctx =
      ((List.range d.length).map CtxNode.closeCtx).reverse := by
    rw [hP, execCloses_ctxs, List.map_reverse, hfst, List.map_reverse]
  refine ⟨?_, ?_, hctx, ?_⟩
  · rw [hP, execCloses_conns, List.map_reverse, hsnd]
  · rw [hP, execCloses_budgets]
    simp [registeredCloses]
  · rw [hctx]
    exact List.nodup_reverse.mpr ((List.nodup_range _).map closeCtx_injective)

/-- C4 witness: a three-service run; closes happen in reverse establishment
order under pairwise distinct contexts. -/
theorem C4_witness :
    (runLoop cfgThree envTagged).result = RunResult.ok ∧
    (processCloses cfgThree envTagged closeOk).map CloseCall.conn =
      (runLoop cfgThree envTagged).deferredCloses.reverse ∧
    ((processCloses cfgThree envTagged closeOk).map CloseCall.ctx).Nodup := by
  refine ⟨by decide, ?_, ?_⟩
  · exact (C4_reverse_order_teardown cfgThree envTagged closeOk (by decide)).1
  · exact (C4_reverse_order_teardown cfgThree envTagged closeOk (by decide)).2.2.2

/-- C5 counterexample: a dataplane error already pending when exitOnErrCh
runs is logged with log.Fatal and the process exits at once; the shared
context is NOT canceled — refuting that a pending error also leads to
cancellation of the shared context ahead of the main flow's check. -/
theorem C5_counterexample :
    (exitOnErrChInstall (some "vpp exited")).fatalExit = true ∧
    (exitOnErrChInstall (some "vpp exited")).canceledShared = false :=
  ⟨rfl, rfl⟩

/-- C5 amended: an error already pending at watcher installation is logged
fatally and the process terminates at once without canceling the shared
context; an error arriving after installation is logged and cancels the
shared context, whereupon the termination-wait context signalCtx is done
when the main flow checks it. -/
theorem C5_error_watcher :
    (∀ e, exitOnErrChInstall (some e) =
        { fatalExit := true, canceledShared := false }) ∧
    exitOnErrChInstall none = { fatalExit := false, canceledShared := false } ∧
    (∀ s, (watcherOnLaterErr s).canceledShared = true) ∧
    ctxDone onlyMainCanceled CtxNode.signalCtx = true :=
  ⟨fun _ => rfl, rfl, fun _ => rfl, rfl⟩

/-- C8 counterexample: each close context is created as WithTimeout over
the shared context (main.go line 303, parent edge below); the instant the
dataplane-error watcher cancels the shared context every close context is
already done — its own deadline has not fired — so an in-flight close does
not retain the full per-request timeout budget. -/
theorem C8_counterexample :
    ctxParent (CtxNode.closeCtx 0) = some CtxNode.mainCtx ∧
    ctxDone onlyMainCanceled (CtxNode.closeCtx 0) = true ∧
    onlyMainCanceled (CtxNode.closeCtx 0) = false :=
  ⟨rfl, rfl, rfl⟩

/-- C8 amended: canceling the shared context unblocks the main termination
wait (signalCtx is done), and each close still receives its own fresh
WithTimeout context carrying the full per-request budget; but these
contexts are children of the shared context, so on the dataplane-error path
(shared context canceled) they are born done, and only on the signal path
(shared context not canceled) does a close retain its full budget. -/
theorem C8_close_contexts :
    ctxDone onlyMainCanceled CtxNode.signalCtx = true ∧
    (∀ i, ctxParent (CtxNode.closeCtx i) = some CtxNode.mainCtx) ∧
    (∀ i, ctxDone onlySignalCanceled (CtxNode.closeCtx i) = false) ∧
    (∀ i, ctxDone onlyMainCanceled (CtxNode.closeCtx i) = true) ∧
    (∀ (cfg : Config) (cr : Nat → Except String Unit) (l : List (Nat × Connection)),
        (execCloses cfg cr l).1.map CloseCall.timeoutBudget =
          List.replicate l.length cfg.requestTimeout) :=
  ⟨rfl, fun _ => rfl, fun _ => rfl, fun _ => rfl,
    fun cfg cr l => execCloses_budgets cfg cr l⟩

/-- C9 counterexample: a close call whose outcome is an error produces no
log entry — main.go line 305 assigns both results of nsmClient.Close to
blanks — refuting that every close error is logged (the call is still made
and teardown proceeds). -/
theorem C9_counterexample :
    closeFail 0 = Except.error "close failed" ∧
    (execCloses cfgOne closeFail [(0, connStale)]).2 = [] ∧
    (execCloses cfgOne closeFail [(0, connStale)]).1 =
      [{ conn := connStale, ctx := CtxNode.closeCtx 0,
         timeoutBudget := cfgOne.requestTimeout }] :=
  ⟨rfl, rfl, rfl⟩

/-- C9 amended: close errors are silently discarded, never logged and never
escalated: the close-call sequence and the (empty) log output are
independent of the close outcomes, every registered close is still
attempted, and the process exit status does not depend on close
outcomes. -/
theorem C9_close_errors_ignored :
    (∀ (cfg : Config) (cr cr2 : Nat → Except String Unit) (l : List (Nat × Connection)),
        (execCloses cfg cr l).1 = (execCloses cfg cr2 l).1) ∧
    (∀ (cfg : Config) (cr : Nat → Except String Unit) (l : List (Nat × Connection)),
        (execCloses cfg cr l).2 = []) ∧
    (∀ (cfg : Config) (env : Env) (cr cr2 : Nat → Except String Unit),
        processExit cfg env cr = processExit cfg env cr2) := by
  refine ⟨?_, ?_, ?_⟩
  · intro cfg cr cr2 l
    rw [execCloses_fst cfg cr l, execCloses_fst cfg cr2 l]
  · intro cfg cr l
    exact execCloses_snd cfg cr l
  · intro cfg env cr cr2
    rfl

/-- C10: the adoption guard requires a path index of exactly 1 — a matching
first-segment Id and mechanism alone never satisfy it — and on adoption the
request's connection carries the deterministic identifier (Id overwritten),
its path index is reset to 0, and the mechanism-preference list stays the
single mechanism freshly derived from the descriptor's URL. -/
theorem C10_adoption_details :
    (∀ id t conn, resumeMatch id t conn = true →
        ∃ p, conn.path = some p ∧ p.index = 1) ∧
    (∀ id (u : NSURL) (monitored : List Connection) conn,
        monitored.find? (resumeMatch id u.mechanism.type_) = some conn →
        (buildRequest id u monitored).connection.id = id ∧
        (buildRequest id u monitored).connection.path =
          conn.path.map (fun p => { index := 0, pathSegments := p.pathSegments }) ∧
        (buildRequest id u monitored).mechanismPreferences = [u.mechanism]) := by
  constructor
  · intro id t conn h
    unfold resumeMatch at h
    split at h
    · rename_i p m hp hm
      refine ⟨p, hp, ?_⟩
      simp only [Bool.and_eq_true, beq_iff_eq] at h
      exact h.1.1
    · simp at h
  · intro id u monitored conn hfind
    refine ⟨buildRequest_id id u monitored, ?_, ?_⟩
    · simp only [buildRequest, hfind]
      rfl
    · simp only [buildRequest, hfind]
      rfl

/-- C10 witness: the theorem at a concrete adoptable connection. -/
theorem C10_witness :
    (∃ p, connResumable.path = some p ∧ p.index = 1) ∧
    (buildRequest (mkID "cmd-nsc-vpp" 0) uMemif [connResumable]).connection.id =
      mkID "cmd-nsc-vpp" 0 ∧
    (buildRequest (mkID "cmd-nsc-vpp" 0) uMemif [connResumable]).mechanismPreferences =
      [uMemif.mechanism] := by
  refine ⟨C10_adoption_details.1 (mkID "cmd-nsc-vpp" 0) uMemif.mechanism.type_
      connResumable (by decide), ?_, ?_⟩
  · exact (C10_adoption_details.2 (mkID "cmd-nsc-vpp" 0) uMemif [connResumable]
      connResumable (by decide)).1
  · exact (C10_adoption_details.2 (mkID "cmd-nsc-vpp" 0) uMemif [connResumable]
      connResumable (by decide)).2.2

end NscVpp
